import Mathlib

/-!
Shallow embedding of `src/sway/config.c` (sway configuration subsystem):
path resolution (`get_config_path`), config loading (`load_config`,
`read_config`) and variable substitution (`do_var_replacement`).

External collaborators that live outside this file of the repository
(`find_handler`, `handle_command`, `strip_whitespace`/`strip_comments`,
the first token of `split_string(line, whitespace)`) are passed as
function parameters.  The global variable `struct sway_config *config`
is threaded explicitly as an `Option SwayConfig`.
-/

namespace Sway

/-- `struct sway_variable`: a user-defined name/value symbol. -/
structure SwayVariable where
  name : String
  value : String
deriving DecidableEq, Repr

/-- `struct sway_binding`: a key combination bound to a command string. -/
structure SwayBinding where
  keys : List String
  command : String
deriving DecidableEq, Repr

/-- `struct sway_mode`: a named set of bindings. -/
structure SwayMode where
  name : String
  bindings : List SwayBinding
deriving DecidableEq, Repr

/-- `struct workspace_output`: a workspace-to-output assignment rule. -/
structure WorkspaceOutput where
  workspace : String
  output : String
deriving DecidableEq, Repr

/-- `struct output_config` (only the `name` field is touched in this file). -/
structure OutputConfig where
  name : String
deriving DecidableEq, Repr

/-- `struct sway_config`: the aggregate configuration store.  `current_mode`
holds the value behind the C pointer into `modes`. -/
structure SwayConfig where
  symbols : List SwayVariable
  modes : List SwayMode
  workspace_outputs : List WorkspaceOutput
  output_configs : List OutputConfig
  cmd_queue : List String
  current_mode : SwayMode
  floating_mod : Nat
  default_layout : Nat
  default_orientation : Nat
  focus_follows_mouse : Bool
  mouse_warping : Bool
  reloading : Bool
  active : Bool
  failed : Bool
  auto_back_and_forth : Bool
  gaps_inner : Int
  gaps_outer : Int
deriving DecidableEq, Repr

/-- The `config_type` classification carried by a `struct cmd_handler`. -/
inductive CmdConfigType where
  /-- `CMD_KEYBIND`: only valid inside a binding context. -/
  | keybind
  /-- `CMD_COMPOSITOR_READY`: requires the running session (wlc initialized). -/
  | compositorReady
  /-- any other classification value. -/
  | other
deriving DecidableEq, Repr

/-- The default mode created in `config_defaults` (lines 89-93):
name `"default"`, empty binding list. -/
def default_mode_init : SwayMode :=
  { name := "default", bindings := [] }

/-- `config_defaults` (lines 81-108): the freshly allocated store with empty
collections, the `"default"` mode installed as `current_mode` and added to
`modes`, and the documented flag defaults. -/
def config_defaults : SwayConfig :=
  { symbols := []
    modes := [default_mode_init]
    workspace_outputs := []
    output_configs := []
    cmd_queue := []
    current_mode := default_mode_init
    floating_mod := 0
    default_layout := 0
    default_orientation := 0
    focus_follows_mouse := true
    mouse_warping := true
    reloading := false
    active := false
    failed := false
    auto_back_and_forth := false
    gaps_inner := 0
    gaps_outer := 0 }

/-- Result of processing one line of the parse loop (lines 231-267):
the updated store, whether the line succeeded (`success` is not cleared),
and the list of arguments passed to `handle_command` for this line. -/
structure LineResult where
  cfg : SwayConfig
  ok : Bool
  hc_calls : List String
deriving DecidableEq, Repr

/-- The body of the `while (!feof(file))` loop of `read_config`
(lines 231-267), applied to an already-normalized line.
`FH` models `find_handler` composed with reading `handler->config_type`,
`HC` models `handle_command`, `ft` models `split_string(line, whitespace)`
followed by taking `items[0]`, and `dm` is the `default_mode` local of
`read_config`. -/
def processLine (FH : String → Option CmdConfigType) (HC : String → Bool)
    (ft : String → String) (is_active : Bool) (dm : SwayMode)
    (c : SwayConfig) (line : String) : LineResult :=
  if line = "" then
    { cfg := c, ok := true, hc_calls := [] }
  else if line.front = Char.ofNat 125 then
    { cfg := { c with current_mode := dm }, ok := true, hc_calls := [] }
  else
    match FH (ft line) with
    | some CmdConfigType.keybind =>
      { cfg := c, ok := true, hc_calls := [] }
    | some CmdConfigType.compositorReady =>
      if !is_active then
        { cfg := { c with cmd_queue := c.cmd_queue ++ [line] }, ok := true, hc_calls := [] }
      else if HC line then
        { cfg := c, ok := true, hc_calls := [line] }
      else
        { cfg := { c with failed := true }, ok := false, hc_calls := [line] }
    | some CmdConfigType.other =>
      if HC line then
        { cfg := c, ok := true, hc_calls := [line] }
      else
        { cfg := { c with failed := true }, ok := false, hc_calls := [line] }
    | none =>
      { cfg := c, ok := true, hc_calls := [] }

/-- The whole parse loop of `read_config`: fold `processLine` over the raw
lines, normalizing each with `nz` (modelling `strip_whitespace` followed by
`strip_comments`) and accumulating the `success` flag. -/
def parseLines (FH : String → Option CmdConfigType) (HC : String → Bool)
    (nz ft : String → String) (is_active : Bool) (dm : SwayMode) :
    SwayConfig → Bool → List String → SwayConfig × Bool
  | c, success, [] => (c, success)
  | c, success, l :: ls =>
    let r := processLine FH HC ft is_active dm c (nz l)
    parseLines FH HC nz ft is_active dm r.cfg (success && r.ok) ls

/-- The value of the global `config` pointer observed at the start of each
iteration of the parse loop: since line 218 assigns the new store to the
global before the loop runs, the global during the processing of line `k`
is the in-progress new store after the first `k` lines. -/
def parseGlobals (FH : String → Option CmdConfigType) (HC : String → Bool)
    (nz ft : String → String) (is_active : Bool) (dm : SwayMode) :
    SwayConfig → List String → List SwayConfig
  | _, [] => []
  | c, l :: ls =>
    c :: parseGlobals FH HC nz ft is_active dm
      (processLine FH HC ft is_active dm c (nz l)).cfg ls

/-- Observable outcome of `read_config` (lines 215-278): the final value of
the global `config`, the returned `success` flag, the stores destroyed by
`free_config` (line 274), and the value of the global during each loop
iteration. -/
structure ReadConfigResult where
  global : Option SwayConfig
  ret : Bool
  freed : List SwayConfig
  during : List SwayConfig
deriving DecidableEq, Repr

/-- `read_config(file, is_active)` (lines 215-278) over the file's lines.
Order of operations, as in the source: the old global is saved (line 216),
the new store is allocated, initialized and published as the global
(lines 218-220) before the loop, the reload flags are set when `is_active`
(lines 223-227), the loop runs, `reloading` is cleared when `is_active`
(line 270), the old store is freed (lines 273-275), and `success` is
returned. -/
def read_config (FH : String → Option CmdConfigType) (HC : String → Bool)
    (nz ft : String → String) (glob : Option SwayConfig)
    (lines : List String) (is_active : Bool) : ReadConfigResult :=
  let old_config := glob
  let c0 := config_defaults
  let dm := c0.current_mode
  let c1 := if is_active then { c0 with reloading := true, active := true } else c0
  let r := parseLines FH HC nz ft is_active dm c1 true lines
  let cf := if is_active then { r.1 with reloading := false } else r.1
  { global := some cf
    ret := r.2
    freed := old_config.toList
    during := parseGlobals FH HC nz ft is_active dm c1 lines }

/-- Environment as seen by `getenv`: `none` models an unset variable. -/
structure Env where
  home : Option String
  xdg_config_home : Option String
  xdg_config_dirs : Option String
deriving DecidableEq, Repr

/-- Modelled from the spec: `split_string` lives in `stringop.c`, which is
not part of the given source; per the spec, `$XDG_CONFIG_DIRS` is scanned as
its colon-separated entries, so splitting on `":"` is used. -/
def split_string (s sep : String) : List String :=
  s.splitOn sep

/-- `get_config_path` (lines 110-177).  `fs` models `file_exists`
(`access(path, R_OK) != -1`).  `Except.error ()` marks the undefined
behaviour of `strlen(NULL)` at line 130, reached when `home` is still the
null pointer after the environment processing of lines 118-129. -/
def get_config_path (env : Env) (fs : String → Bool) :
    Except Unit (Option String) :=
  let hc : Option String × Option String :=
    match env.xdg_config_home with
    | some c => (env.home, some c)
    | none =>
      match env.home with
      | some h => (some h, some (h ++ "/.config"))
      | none => (some "", some "")
  match hc with
  | (some home, some conf) =>
    let search : List String :=
      [home ++ "/.sway/config",
       conf ++ "/sway/config",
       "/etc/sway/config",
       home ++ "/.i3/config",
       conf ++ "/.i3/config",
       "/etc/i3/config"]
    match search.find? fs with
    | some p => Except.ok (some p)
    | none =>
      match env.xdg_config_dirs with
      | some dirs =>
        Except.ok (((split_string dirs ":").map
          (fun d => d ++ "/sway/config")).find? fs)
      | none => Except.ok none
  | _ => Except.error ()

/-- Observable outcome of `load_config`: the (possibly unchanged) global
store and the returned flag. -/
structure LoadResult where
  global : Option SwayConfig
  ret : Bool
deriving DecidableEq, Repr

/-- `load_config(file)` (lines 179-213).  `openFile` models `fopen` with
`"r"` together with reading all lines: `none` means the open failed.
The `is_active` argument of `read_config` is whether a live store exists
(lines 205-209). -/
def load_config (FH : String → Option CmdConfigType) (HC : String → Bool)
    (nz ft : String → String) (env : Env) (fs : String → Bool)
    (openFile : String → Option (List String)) (glob : Option SwayConfig)
    (file : Option String) : Except Unit LoadResult :=
  let pathE : Except Unit (Option String) :=
    match file with
    | some f => Except.ok (some f)
    | none => get_config_path env fs
  match pathE with
  | Except.error e => Except.error e
  | Except.ok none => Except.ok { global := glob, ret := false }
  | Except.ok (some p) =>
    match openFile p with
    | none => Except.ok { global := glob, ret := false }
    | some ls =>
      let r := read_config FH HC nz ft glob ls glob.isSome
      Except.ok { global := r.global, ret := r.ret }

/-- Result of the `do_var_replacement` scan: `ub` marks the null
dereference of the global `config` (line 287 with `config == NULL`),
`out` marks exhausted fuel (the C loop can grow the string faster than
`i` advances, so it need not terminate), `ok` is normal return. -/
inductive VarRes where
  | ub
  | out
  | ok (s : List Char)
deriving DecidableEq, Repr

/-- The inner `for (j = ...)` loop of `do_var_replacement` (lines 287-302)
at marker position `i`: each variable whose name is a prefix of the text
starting at `i` (`strstr(str + i, var->name) == str + i`) rebuilds the
string as `prefix + value + suffix`, and the scan continues through the
variable list against the replaced string. -/
def varStep (vars : List SwayVariable) (s : List Char) (i : Nat) : List Char :=
  vars.foldl
    (fun t v =>
      if List.isPrefixOf v.name.toList (t.drop i) then
        t.take i ++ v.value.toList ++ t.drop (i + v.name.length)
      else t)
    s

/-- The outer `for (i = 0; str[i]; ++i)` loop of `do_var_replacement`
(lines 283-304), threading the global `config` symbol table as
`g : Option (List SwayVariable)`.  At a `$` the loop condition
`j < config->symbols->length` reads through the global: `g = none` is the
null dereference. -/
def varLoopC (g : Option (List SwayVariable)) :
    Nat → List Char → Nat → VarRes
  | fuel, s, i =>
    if h : i < s.length then
      match fuel with
      | 0 => VarRes.out
      | Nat.succ n =>
        if s.get ⟨i, h⟩ = Char.ofNat 36 then
          match g with
          | none => VarRes.ub
          | some vars => varLoopC (some vars) n (varStep vars s i) (i + 1)
        else varLoopC g n s (i + 1)
    else VarRes.ok s

/-- `do_var_replacement(str)` (lines 280-306), reading the variable table
through the global store `glob` (the file-scope `config` of line 14), with
`fuel` bounding the number of outer-loop iterations. -/
def do_var_replacement (glob : Option SwayConfig) (fuel : Nat)
    (s : List Char) : VarRes :=
  varLoopC (glob.map (fun c => c.symbols)) fuel s 0

/-- The per-line success flag produced by the loop body: it depends only on
the line itself (and the collaborators), never on the store. -/
def lineOK (FH : String → Option CmdConfigType) (HC : String → Bool)
    (ft : String → String) (is_active : Bool) (line : String) : Bool :=
  if line = "" then true
  else if line.front = Char.ofNat 125 then true
  else
    match FH (ft line) with
    | some CmdConfigType.keybind => true
    | some CmdConfigType.compositorReady => if !is_active then true else HC line
    | some CmdConfigType.other => HC line
    | none => true

/-- Whether a normalized line is deferred to `cmd_queue` by the loop body
when the session is not active: non-empty, not a mode-closing line, and its
leading token resolves to a `CMD_COMPOSITOR_READY` handler. -/
def deferredLine (FH : String → Option CmdConfigType) (ft : String → String)
    (line : String) : Bool :=
  decide (line ≠ "") && decide (line.front ≠ Char.ofNat 125) &&
    decide (FH (ft line) = some CmdConfigType.compositorReady)

/-- The store published as the global at line 218 and flagged by
lines 223-227, before the parse loop starts. -/
def initial_store (is_active : Bool) : SwayConfig :=
  if is_active then { config_defaults with reloading := true, active := true }
  else config_defaults

/-- The `$CONFIG_HOME` of the spec (section 4.1): `$XDG_CONFIG_HOME` if set,
else `$HOME/.config`, missing variables read as empty strings. -/
def config_home (env : Env) : String :=
  match env.xdg_config_home with
  | some c => c
  | none => env.home.getD "" ++ "/.config"

/-- The prioritized candidate list exactly as the spec words it
(section 4.1): the six fixed entries followed by the `$XDG_CONFIG_DIRS`
entries with `/sway/config` appended, in listed order. -/
def spec_candidates (env : Env) : List String :=
  [env.home.getD "" ++ "/.sway/config",
   config_home env ++ "/sway/config",
   "/etc/sway/config",
   env.home.getD "" ++ "/.i3/config",
   config_home env ++ "/.i3/config",
   "/etc/i3/config"] ++
  (match env.xdg_config_dirs with
   | some dirs => (split_string dirs ":").map (fun d => d ++ "/sway/config")
   | none => [])

/-! ## Helper lemmas about the parse loop -/

theorem processLine_ok_eq (FH : String → Option CmdConfigType) (HC : String → Bool)
    (ft : String → String) (ia : Bool) (dm : SwayMode) (c : SwayConfig) (line : String) :
    (processLine FH HC ft ia dm c line).ok = lineOK FH HC ft ia line := by
  unfold processLine lineOK
  split
  · rfl
  · split
    · rfl
    · cases FH (ft line) with
      | none => rfl
      | some t =>
        cases t with
        | keybind => rfl
        | compositorReady =>
          cases ia with
          | false => rfl
          | true =>
            simp only [Bool.not_true, Bool.false_eq_true, if_false]
            cases HC line <;> rfl
        | other => cases HC line <;> rfl

theorem processLine_failed_eq (FH : String → Option CmdConfigType) (HC : String → Bool)
    (ft : String → String) (ia : Bool) (dm : SwayMode) (c : SwayConfig) (line : String) :
    (processLine FH HC ft ia dm c line).cfg.failed =
      (c.failed || !(lineOK FH HC ft ia line)) := by
  unfold processLine lineOK
  split
  · simp
  · split
    · simp
    · cases FH (ft line) with
      | none => simp
      | some t =>
        cases t with
        | keybind => simp
        | compositorReady =>
          cases ia with
          | false => simp
          | true =>
            simp only [Bool.not_true, Bool.false_eq_true, if_false]
            cases HC line <;> simp
        | other => cases HC line <;> simp

theorem processLine_modes_eq (FH : String → Option CmdConfigType) (HC : String → Bool)
    (ft : String → String) (ia : Bool) (dm : SwayMode) (c : SwayConfig) (line : String) :
    (processLine FH HC ft ia dm c line).cfg.modes = c.modes := by
  unfold processLine
  split
  · rfl
  · split
    · rfl
    · cases FH (ft line) with
      | none => rfl
      | some t =>
        cases t with
        | keybind => rfl
        | compositorReady =>
          cases ia with
          | false => rfl
          | true =>
            simp only [Bool.not_true, Bool.false_eq_true, if_false]
            cases HC line <;> rfl
        | other => cases HC line <;> rfl

theorem processLine_current_mode (FH : String → Option CmdConfigType) (HC : String → Bool)
    (ft : String → String) (ia : Bool) (dm : SwayMode) (c : SwayConfig) (line : String)
    (h : c.current_mode = dm) :
    (processLine FH HC ft ia dm c line).cfg.current_mode = dm := by
  unfold processLine
  split
  · exact h
  · split
    · rfl
    · cases FH (ft line) with
      | none => exact h
      | some t =>
        cases t with
        | keybind => exact h
        | compositorReady =>
          cases ia with
          | false => exact h
          | true =>
            simp only [Bool.not_true, Bool.false_eq_true, if_false]
            cases HC line <;> exact h
        | other => cases HC line <;> exact h

theorem processLine_queue_inactive (FH : String → Option CmdConfigType) (HC : String → Bool)
    (ft : String → String) (dm : SwayMode) (c : SwayConfig) (line : String) :
    (processLine FH HC ft false dm c line).cfg.cmd_queue =
      c.cmd_queue ++ (if deferredLine FH ft line then [line] else []) := by
  unfold processLine deferredLine
  split
  · next h => simp [h]
  · next h1 =>
    split
    · next h2 => simp [h1, h2]
    · next h2 =>
      cases hf : FH (ft line) with
      | none => simp [h1, h2, hf]
      | some t =>
        cases t with
        | keybind => simp [h1, h2, hf]
        | compositorReady => simp [h1, h2, hf]
        | other =>
          cases HC line <;> simp [h1, h2, hf]

theorem processLine_deferred_eq (FH : String → Option CmdConfigType) (HC : String → Bool)
    (ft : String → String) (dm : SwayMode) (c : SwayConfig) (line : String)
    (h1 : line ≠ "") (h2 : line.front ≠ Char.ofNat 125)
    (h3 : FH (ft line) = some CmdConfigType.compositorReady) :
    processLine FH HC ft false dm c line =
      { cfg := { c with cmd_queue := c.cmd_queue ++ [line] }, ok := true, hc_calls := [] } := by
  unfold processLine
  simp [h1, h2, h3]

theorem processLine_close_eq (FH : String → Option CmdConfigType) (HC : String → Bool)
    (ft : String → String) (ia : Bool) (dm : SwayMode) (c : SwayConfig) (line : String)
    (h1 : line ≠ "") (h2 : line.front = Char.ofNat 125) :
    processLine FH HC ft ia dm c line =
      { cfg := { c with current_mode := dm }, ok := true, hc_calls := [] } := by
  unfold processLine
  simp [h1, h2]

theorem processLine_ignored_eq (FH : String → Option CmdConfigType) (HC : String → Bool)
    (ft : String → String) (ia : Bool) (dm : SwayMode) (c : SwayConfig) (line : String)
    (h1 : line ≠ "") (h2 : line.front ≠ Char.ofNat 125)
    (h3 : FH (ft line) = none ∨ FH (ft line) = some CmdConfigType.keybind) :
    processLine FH HC ft ia dm c line = { cfg := c, ok := true, hc_calls := [] } := by
  unfold processLine
  rcases h3 with h3 | h3 <;> simp [h1, h2, h3]

theorem parseLines_cfg_success_irrel (FH : String → Option CmdConfigType) (HC : String → Bool)
    (nz ft : String → String) (ia : Bool) (dm : SwayMode) (ls : List String) :
    ∀ (c : SwayConfig) (s : Bool),
      (parseLines FH HC nz ft ia dm c s ls).1 = (parseLines FH HC nz ft ia dm c true ls).1 := by
  induction ls with
  | nil => intro c s; rfl
  | cons l ls ih =>
    intro c s
    simp only [parseLines]
    rw [ih, ih _ (true && _)]

theorem parseLines_ret_eq (FH : String → Option CmdConfigType) (HC : String → Bool)
    (nz ft : String → String) (ia : Bool) (dm : SwayMode) (ls : List String) :
    ∀ (c : SwayConfig) (s : Bool),
      (parseLines FH HC nz ft ia dm c s ls).2 =
        (s && ls.all (fun l => lineOK FH HC ft ia (nz l))) := by
  induction ls with
  | nil => intro c s; simp [parseLines]
  | cons l ls ih =>
    intro c s
    simp only [parseLines, ih, processLine_ok_eq, List.all_cons, Bool.and_assoc]

theorem parseLines_failed_eq (FH : String → Option CmdConfigType) (HC : String → Bool)
    (nz ft : String → String) (ia : Bool) (dm : SwayMode) (ls : List String) :
    ∀ (c : SwayConfig) (s : Bool),
      (parseLines FH HC nz ft ia dm c s ls).1.failed =
        (c.failed || !(ls.all (fun l => lineOK FH HC ft ia (nz l)))) := by
  induction ls with
  | nil => intro c s; simp [parseLines]
  | cons l ls ih =>
    intro c s
    simp only [parseLines, ih, processLine_failed_eq, List.all_cons]
    cases c.failed <;> cases lineOK FH HC ft ia (nz l) <;> simp

theorem parseLines_modes_eq (FH : String → Option CmdConfigType) (HC : String → Bool)
    (nz ft : String → String) (ia : Bool) (dm : SwayMode) (ls : List String) :
    ∀ (c : SwayConfig) (s : Bool),
      (parseLines FH HC nz ft ia dm c s ls).1.modes = c.modes := by
  induction ls with
  | nil => intro c s; rfl
  | cons l ls ih =>
    intro c s
    simp only [parseLines, ih, processLine_modes_eq]

theorem parseLines_current_mode (FH : String → Option CmdConfigType) (HC : String → Bool)
    (nz ft : String → String) (ia : Bool) (dm : SwayMode) (ls : List String) :
    ∀ (c : SwayConfig) (s : Bool), c.current_mode = dm →
      (parseLines FH HC nz ft ia dm c s ls).1.current_mode = dm := by
  induction ls with
  | nil => intro c s h; exact h
  | cons l ls ih =>
    intro c s h
    simp only [parseLines]
    exact ih _ _ (processLine_current_mode FH HC ft ia dm c (nz l) h)

theorem parseLines_queue_inactive (FH : String → Option CmdConfigType) (HC : String → Bool)
    (nz ft : String → String) (dm : SwayMode) (ls : List String) :
    ∀ (c : SwayConfig) (s : Bool),
      (parseLines FH HC nz ft false dm c s ls).1.cmd_queue =
        c.cmd_queue ++ (ls.map nz).filter (deferredLine FH ft) := by
  induction ls with
  | nil => intro c s; simp [parseLines]
  | cons l ls ih =>
    intro c s
    simp only [parseLines, ih, processLine_queue_inactive, List.map_cons, List.filter_cons]
    cases deferredLine FH ft (nz l) <;> simp

theorem parseLines_append_eq (FH : String → Option CmdConfigType) (HC : String → Bool)
    (nz ft : String → String) (ia : Bool) (dm : SwayMode) (xs ys : List String) :
    ∀ (c : SwayConfig) (s : Bool),
      parseLines FH HC nz ft ia dm c s (xs ++ ys) =
        parseLines FH HC nz ft ia dm (parseLines FH HC nz ft ia dm c s xs).1
          (parseLines FH HC nz ft ia dm c s xs).2 ys := by
  induction xs with
  | nil => intro c s; rfl
  | cons x xs ih =>
    intro c s
    simp only [List.cons_append, parseLines, List.append_eq]
    exact ih _ _

theorem parseGlobals_get? (FH : String → Option CmdConfigType) (HC : String → Bool)
    (nz ft : String → String) (ia : Bool) (dm : SwayMode) (ls : List String) :
    ∀ (c : SwayConfig) (k : Nat), k < ls.length →
      (parseGlobals FH HC nz ft ia dm c ls).get? k =
        some (parseLines FH HC nz ft ia dm c true (ls.take k)).1 := by
  induction ls with
  | nil => intro c k hk; simp at hk
  | cons l ls ih =>
    intro c k hk
    cases k with
    | zero => rfl
    | succ k =>
      simp only [parseGlobals, List.get?_cons_succ, List.take_succ_cons, parseLines]
      rw [ih _ k (by simpa using hk)]
      rw [parseLines_cfg_success_irrel FH HC nz ft ia dm (ls.take k)
        ((processLine FH HC ft ia dm c (nz l)).cfg)
        (true && (processLine FH HC ft ia dm c (nz l)).ok)]

/-! ## Helper lemmas about variable substitution -/

theorem varStep_no_match (s : List Char) (i : Nat) (vars : List SwayVariable)
    (h : ∀ v ∈ vars, List.isPrefixOf v.name.toList (s.drop i) = false) :
    varStep vars s i = s := by
  induction vars with
  | nil => rfl
  | cons v vs ih =>
    unfold varStep
    simp only [List.foldl_cons, h v (List.mem_cons_self v vs), Bool.false_eq_true, if_false]
    exact ih (fun w hw => h w (List.mem_cons_of_mem v hw))

theorem varLoopC_stop (g : Option (List SwayVariable)) (fuel : Nat) (s : List Char)
    (i : Nat) (h : ¬ i < s.length) : varLoopC g fuel s i = VarRes.ok s := by
  unfold varLoopC
  rw [dif_neg h]

theorem varLoopC_zero (g : Option (List SwayVariable)) (s : List Char)
    (i : Nat) (h : i < s.length) : varLoopC g 0 s i = VarRes.out := by
  unfold varLoopC
  rw [dif_pos h]

theorem varLoopC_succ_null (n : Nat) (s : List Char) (i : Nat)
    (h : i < s.length) (hc : s.get ⟨i, h⟩ = Char.ofNat 36) :
    varLoopC none (n + 1) s i = VarRes.ub := by
  conv_lhs => unfold varLoopC
  rw [dif_pos h]
  show (if s.get ⟨i, h⟩ = Char.ofNat 36 then VarRes.ub else varLoopC none n s (i + 1)) =
    VarRes.ub
  rw [if_pos hc]

theorem varLoopC_succ_marker (vars : List SwayVariable) (n : Nat) (s : List Char)
    (i : Nat) (h : i < s.length) (hc : s.get ⟨i, h⟩ = Char.ofNat 36) :
    varLoopC (some vars) (n + 1) s i = varLoopC (some vars) n (varStep vars s i) (i + 1) := by
  conv_lhs => unfold varLoopC
  rw [dif_pos h]
  show (if s.get ⟨i, h⟩ = Char.ofNat 36 then varLoopC (some vars) n (varStep vars s i) (i + 1)
    else varLoopC (some vars) n s (i + 1)) = _
  rw [if_pos hc]

theorem varLoopC_succ_nomark (g : Option (List SwayVariable)) (n : Nat) (s : List Char)
    (i : Nat) (h : i < s.length) (hc : ¬ s.get ⟨i, h⟩ = Char.ofNat 36) :
    varLoopC g (n + 1) s i = varLoopC g n s (i + 1) := by
  conv_lhs => unfold varLoopC
  rw [dif_pos h]
  show (if s.get ⟨i, h⟩ = Char.ofNat 36 then
      (match g with
       | none => VarRes.ub
       | some vars => varLoopC (some vars) n (varStep vars s i) (i + 1))
    else varLoopC g n s (i + 1)) = _
  rw [if_neg hc]

theorem varLoopC_no_marker (vars : List SwayVariable) :
    ∀ (fuel : Nat) (s : List Char) (i : Nat),
      (∀ c ∈ s, c ≠ Char.ofNat 36) → s.length - i ≤ fuel →
      varLoopC (some vars) fuel s i = VarRes.ok s := by
  intro fuel
  induction fuel with
  | zero =>
    intro s i hs hf
    by_cases h : i < s.length
    · omega
    · exact varLoopC_stop _ _ _ _ h
  | succ n ih =>
    intro s i hs hf
    by_cases h : i < s.length
    · have hne : s.get ⟨i, h⟩ ≠ Char.ofNat 36 := hs _ (s.get_mem i h)
      rw [varLoopC_succ_nomark _ _ _ _ h hne]
      exact ih s (i + 1) hs (by omega)
    · exact varLoopC_stop _ _ _ _ h

theorem varLoopC_none_ub :
    ∀ (fuel : Nat) (s : List Char) (i : Nat),
      Char.ofNat 36 ∈ s.drop i → s.length - i ≤ fuel →
      varLoopC none fuel s i = VarRes.ub := by
  intro fuel
  induction fuel with
  | zero =>
    intro s i hm hf
    have hi : i < s.length := by
      by_contra hge
      rw [List.drop_eq_nil_of_le (by omega)] at hm
      exact absurd hm (List.not_mem_nil _)
    omega
  | succ n ih =>
    intro s i hm hf
    have hi : i < s.length := by
      by_contra hge
      rw [List.drop_eq_nil_of_le (by omega)] at hm
      exact absurd hm (List.not_mem_nil _)
    by_cases hc : s.get ⟨i, hi⟩ = Char.ofNat 36
    · exact varLoopC_succ_null n s i hi hc
    · rw [varLoopC_succ_nomark _ _ _ _ hi hc]
      have hdrop : s.drop i = s.get ⟨i, hi⟩ :: s.drop (i + 1) :=
        List.drop_eq_getElem_cons hi
      rw [hdrop] at hm
      rcases List.mem_cons.mp hm with h | h
      · exact absurd h.symm hc
      · exact ih s (i + 1) h (by omega)

theorem varLoopC_some_ne_ub (vars : List SwayVariable) :
    ∀ (fuel : Nat) (s : List Char) (i : Nat),
      varLoopC (some vars) fuel s i ≠ VarRes.ub := by
  intro fuel
  induction fuel with
  | zero =>
    intro s i
    by_cases h : i < s.length
    · rw [varLoopC_zero _ _ _ h]
      intro hx
      exact VarRes.noConfusion hx
    · rw [varLoopC_stop _ _ _ _ h]
      intro hx
      exact VarRes.noConfusion hx
  | succ n ih =>
    intro s i
    by_cases h : i < s.length
    · by_cases hc : s.get ⟨i, h⟩ = Char.ofNat 36
      · rw [varLoopC_succ_marker vars n s i h hc]
        exact ih _ _
      · rw [varLoopC_succ_nomark _ _ _ _ h hc]
        exact ih _ _
    · rw [varLoopC_stop _ _ _ _ h]
      intro hx
      exact VarRes.noConfusion hx

/-! ## Helper lemmas about read_config -/

theorem initial_store_failed (ia : Bool) : (initial_store ia).failed = false := by
  cases ia <;> rfl

theorem initial_store_current_mode (ia : Bool) :
    (initial_store ia).current_mode = default_mode_init := by
  cases ia <;> rfl

theorem initial_store_modes (ia : Bool) :
    (initial_store ia).modes = [default_mode_init] := by
  cases ia <;> rfl

theorem read_config_during_eq (FH : String → Option CmdConfigType) (HC : String → Bool)
    (nz ft : String → String) (glob : Option SwayConfig) (lines : List String) (ia : Bool) :
    (read_config FH HC nz ft glob lines ia).during =
      parseGlobals FH HC nz ft ia default_mode_init (initial_store ia) lines :=
  rfl

theorem read_config_global_eq (FH : String → Option CmdConfigType) (HC : String → Bool)
    (nz ft : String → String) (glob : Option SwayConfig) (lines : List String) (ia : Bool) :
    (read_config FH HC nz ft glob lines ia).global =
      some (if ia then
        { (parseLines FH HC nz ft ia default_mode_init (initial_store ia) true lines).1
          with reloading := false }
      else (parseLines FH HC nz ft ia default_mode_init (initial_store ia) true lines).1) :=
  rfl

theorem read_config_freed_eq (FH : String → Option CmdConfigType) (HC : String → Bool)
    (nz ft : String → String) (glob : Option SwayConfig) (lines : List String) (ia : Bool) :
    (read_config FH HC nz ft glob lines ia).freed = glob.toList :=
  rfl

theorem read_config_ret_eq (FH : String → Option CmdConfigType) (HC : String → Bool)
    (nz ft : String → String) (glob : Option SwayConfig) (lines : List String) (ia : Bool) :
    (read_config FH HC nz ft glob lines ia).ret =
      lines.all (fun l => lineOK FH HC ft ia (nz l)) := by
  show (parseLines FH HC nz ft ia default_mode_init (initial_store ia) true lines).2 = _
  rw [parseLines_ret_eq]
  exact Bool.true_and _

theorem read_config_failed_eq (FH : String → Option CmdConfigType) (HC : String → Bool)
    (nz ft : String → String) (glob : Option SwayConfig) (lines : List String) (ia : Bool) :
    (read_config FH HC nz ft glob lines ia).global.map SwayConfig.failed =
      some (!(lines.all (fun l => lineOK FH HC ft ia (nz l)))) := by
  rw [read_config_global_eq]
  cases ia with
  | false =>
    simp only [Bool.false_eq_true, if_false, Option.map_some']
    rw [parseLines_failed_eq, initial_store_failed]
    simp
  | true =>
    simp only [if_true, Option.map_some']
    show some (parseLines FH HC nz ft true default_mode_init (initial_store true) true lines).1.failed = _
    rw [parseLines_failed_eq, initial_store_failed]
    simp

/-! ## Claim theorems -/

/-- C2, code bug: the spec promises that missing environment variables are
treated as empty strings and never null-dereferenced, and in particular
that `get_config_path` is safe when `HOME` is unset while
`XDG_CONFIG_HOME` is set.  The code however leaves `home` as the null
pointer in exactly that combination (lines 118-129 only repair it when
`XDG_CONFIG_HOME` is also unset), so `strlen(home)` at line 130
dereferences null — modelled as `Except.error ()`.  The second conjunct
shows the neighbouring both-unset combination is handled (empty strings,
normal return), isolating the slip. -/
theorem C2_home_unset_null_deref :
    get_config_path { home := none, xdg_config_home := some "/xdg", xdg_config_dirs := none }
        (fun _ => false) = Except.error () ∧
    get_config_path { home := none, xdg_config_home := none, xdg_config_dirs := none }
        (fun _ => false) = Except.ok none :=
  ⟨rfl, rfl⟩

/-- C3, counterexample: with the variable table holding exactly
`{name := "foo", value := "BAR"}` — the name as the claim words it, without
the marker — `do_var_replacement` returns `"go $foo now"` unchanged, not
`"go BAR now"`: the match at line 289 compares `var->name` against the text
starting at the `$` itself, so a name not beginning with `$` never
matches. -/
theorem C3_counterexample :
    do_var_replacement
        (some { config_defaults with symbols := [{ name := "foo", value := "BAR" }] })
        20 "go $foo now".toList = VarRes.ok "go $foo now".toList ∧
    "go $foo now".toList ≠ "go BAR now".toList := by
  exact ⟨rfl, by decide⟩

/-- C3, amended: with the variable table containing exactly one variable
whose stored name is `"$foo"` (the name as stored includes the leading
marker character) and value `"BAR"`, `do_var_replacement` applied to
`"go $foo now"` returns `"go BAR now"`. -/
theorem C3_amended_substitution :
    do_var_replacement
        (some { config_defaults with symbols := [{ name := "$foo", value := "BAR" }] })
        20 "go $foo now".toList = VarRes.ok "go BAR now".toList :=
  rfl

/-- C9: variable substitution is the identity on strings containing no
marker character, and at a marker occurrence where no variable name is a
prefix of the remaining text the inner scan leaves the string unchanged
and the outer scan continues past the occurrence. -/
theorem C9_no_match_identity :
    (∀ (cfg : SwayConfig) (fuel : Nat) (s : List Char),
      (∀ c ∈ s, c ≠ Char.ofNat 36) → s.length ≤ fuel →
      do_var_replacement (some cfg) fuel s = VarRes.ok s) ∧
    (∀ (vars : List SwayVariable) (s : List Char) (i fuel : Nat)
      (h : i < s.length), s.get ⟨i, h⟩ = Char.ofNat 36 →
      (∀ v ∈ vars, List.isPrefixOf v.name.toList (s.drop i) = false) →
      varStep vars s i = s ∧
      varLoopC (some vars) (fuel + 1) s i = varLoopC (some vars) fuel s (i + 1)) := by
  constructor
  · intro cfg fuel s hs hf
    exact varLoopC_no_marker cfg.symbols fuel s 0 hs (by omega)
  · intro vars s i fuel h hm hnp
    have hstep := varStep_no_match s i vars hnp
    refine ⟨hstep, ?_⟩
    rw [varLoopC_succ_marker vars fuel s i h hm, hstep]

/-- C9, witness: the identity conjunct at `"abc"` with the default store,
and the unchanged-occurrence conjunct at `"$x"` against a table whose only
name `"$y"` does not match. -/
theorem C9_witness :
    do_var_replacement (some config_defaults) 3 "abc".toList =
      VarRes.ok "abc".toList ∧
    (varStep [{ name := "$y", value := "z" }] "$x".toList 0 = "$x".toList ∧
      varLoopC (some [{ name := "$y", value := "z" }]) 5 "$x".toList 0 =
        varLoopC (some [{ name := "$y", value := "z" }]) 4 "$x".toList 1) :=
  ⟨C9_no_match_identity.1 config_defaults 3 "abc".toList (by decide) (by decide),
   C9_no_match_identity.2 [{ name := "$y", value := "z" }] "$x".toList 0 4
     (by decide) (by decide) (by decide)⟩

/-- C10: `do_var_replacement` reaches the variable table only through the
global live store, so on any input containing the marker character a call
with the global reference null (`config == NULL`, before any load)
dereferences the null store, while with any live store present the scan
never reaches that dereference. -/
theorem C10_null_global (s : List Char) (fuel : Nat)
    (h1 : Char.ofNat 36 ∈ s) (h2 : s.length ≤ fuel) :
    do_var_replacement none fuel s = VarRes.ub ∧
    ∀ (cfg : SwayConfig) (fuel2 : Nat) (t : List Char),
      do_var_replacement (some cfg) fuel2 t ≠ VarRes.ub := by
  constructor
  · exact varLoopC_none_ub fuel s 0 (by simpa using h1) (by omega)
  · intro cfg fuel2 t
    exact varLoopC_some_ne_ub cfg.symbols fuel2 t 0

/-- C10, witness: the null dereference on `"$a"` with two units of fuel. -/
theorem C10_witness :
    do_var_replacement none 2 "$a".toList = VarRes.ub ∧
    ∀ (cfg : SwayConfig) (fuel2 : Nat) (t : List Char),
      do_var_replacement (some cfg) fuel2 t ≠ VarRes.ub :=
  C10_null_global "$a".toList 2 (by decide) (by decide)

/-- C7: `load_config` returns failure when no path resolves or the resolved
or explicit file cannot be opened, and in all three cases the global live
store is returned unchanged (no new store is built or swapped). -/
theorem C7_load_failures (FH : String → Option CmdConfigType) (HC : String → Bool)
    (nz ft : String → String) (env : Env) (fs : String → Bool)
    (openFile : String → Option (List String)) (glob : Option SwayConfig) (p : String) :
    (get_config_path env fs = Except.ok none →
      load_config FH HC nz ft env fs openFile glob none =
        Except.ok { global := glob, ret := false }) ∧
    (get_config_path env fs = Except.ok (some p) → openFile p = none →
      load_config FH HC nz ft env fs openFile glob none =
        Except.ok { global := glob, ret := false }) ∧
    (openFile p = none →
      load_config FH HC nz ft env fs openFile glob (some p) =
        Except.ok { global := glob, ret := false }) := by
  refine ⟨?_, ?_, ?_⟩
  · intro h
    simp only [load_config, h]
  · intro h ho
    simp only [load_config, h, ho]
  · intro ho
    simp only [load_config, ho]

/-- C7, witness: an environment resolving no path, and an unopenable
explicit path. -/
theorem C7_witness :
    load_config (fun _ => none) (fun _ => true) id id
        { home := some "/h", xdg_config_home := none, xdg_config_dirs := none }
        (fun _ => false) (fun _ => none) (some config_defaults) none =
      Except.ok { global := some config_defaults, ret := false } ∧
    load_config (fun _ => none) (fun _ => true) id id
        { home := some "/h", xdg_config_home := none, xdg_config_dirs := none }
        (fun _ => false) (fun _ => none) (some config_defaults) (some "/etc/sway/config") =
      Except.ok { global := some config_defaults, ret := false } :=
  ⟨(C7_load_failures (fun _ => none) (fun _ => true) id id
      { home := some "/h", xdg_config_home := none, xdg_config_dirs := none }
      (fun _ => false) (fun _ => none) (some config_defaults) "/etc/sway/config").1 rfl,
   (C7_load_failures (fun _ => none) (fun _ => true) id id
      { home := some "/h", xdg_config_home := none, xdg_config_dirs := none }
      (fun _ => false) (fun _ => none) (some config_defaults) "/etc/sway/config").2.2 rfl⟩

/-- C8: with `HOME` set, `get_config_path` returns the first existing,
readable candidate in the spec's order — `$HOME/.sway/config`,
`$CONFIG_HOME/sway/config`, `/etc/sway/config`, `$HOME/.i3/config`,
`$CONFIG_HOME/.i3/config`, `/etc/i3/config`, then the `$XDG_CONFIG_DIRS`
entries with `/sway/config` appended in listed order — checking nothing
past the first match (`List.find?`); and in the concrete scenario with
`HOME=/home/u`, `XDG_CONFIG_HOME` unset and only `/home/u/.i3/config`
existing, it returns that path. -/
theorem C8_search_order (env : Env) (fs : String → Bool) (h : String)
    (hh : env.home = some h) :
    get_config_path env fs = Except.ok ((spec_candidates env).find? fs) ∧
    get_config_path { home := some "/home/u", xdg_config_home := none, xdg_config_dirs := none }
        (fun p => p == "/home/u/.i3/config") = Except.ok (some "/home/u/.i3/config") := by
  refine ⟨?_, rfl⟩
  obtain ⟨eh, ex, ed⟩ := env
  simp only at hh
  subst hh
  cases ex with
  | none =>
    cases ed with
    | none =>
      simp only [get_config_path, spec_candidates, config_home, split_string,
        Option.getD, List.append_nil]
      cases hf : List.find? fs [h ++ "/.sway/config", h ++ "/.config" ++ "/sway/config",
          "/etc/sway/config", h ++ "/.i3/config", h ++ "/.config" ++ "/.i3/config",
          "/etc/i3/config"] with
      | none => rfl
      | some q => rfl
    | some dirs =>
      simp only [get_config_path, spec_candidates, config_home, split_string, Option.getD]
      cases hf : List.find? fs [h ++ "/.sway/config", h ++ "/.config" ++ "/sway/config",
          "/etc/sway/config", h ++ "/.i3/config", h ++ "/.config" ++ "/.i3/config",
          "/etc/i3/config"] with
      | none =>
        rw [List.find?_append, hf]
        rfl
      | some q =>
        rw [List.find?_append, hf]
        rfl
  | some cdir =>
    cases ed with
    | none =>
      simp only [get_config_path, spec_candidates, config_home, split_string,
        Option.getD, List.append_nil]
      cases hf : List.find? fs [h ++ "/.sway/config", cdir ++ "/sway/config",
          "/etc/sway/config", h ++ "/.i3/config", cdir ++ "/.i3/config",
          "/etc/i3/config"] with
      | none => rfl
      | some q => rfl
    | some dirs =>
      simp only [get_config_path, spec_candidates, config_home, split_string, Option.getD]
      cases hf : List.find? fs [h ++ "/.sway/config", cdir ++ "/sway/config",
          "/etc/sway/config", h ++ "/.i3/config", cdir ++ "/.i3/config",
          "/etc/i3/config"] with
      | none =>
        rw [List.find?_append, hf]
        rfl
      | some q =>
        rw [List.find?_append, hf]
        rfl

/-- C8, witness: the claim's concrete scenario obtained through the
general search-order statement. -/
theorem C8_witness :
    get_config_path { home := some "/home/u", xdg_config_home := none, xdg_config_dirs := none }
        (fun p => p == "/home/u/.i3/config") =
      Except.ok ((spec_candidates
        { home := some "/home/u", xdg_config_home := none, xdg_config_dirs := none }).find?
        (fun p => p == "/home/u/.i3/config")) :=
  (C8_search_order { home := some "/home/u", xdg_config_home := none, xdg_config_dirs := none }
    (fun p => p == "/home/u/.i3/config") "/home/u" rfl).1

/-- C1, counterexample: the claim says the shadow store replaces the
global live store only after the whole parse pass, with no parse step
running while the shadow is already published.  In the code the new store
is assigned to the global at line 218, before the loop: in this concrete
reload (old live store distinguishable by `gaps_inner = 7`, one line,
unknown token), the global observed while the only line is processed is
already the freshly built shadow store (reload flags set), not the old
live store, and that same store (with `reloading` cleared) is the final
global. -/
theorem C1_counterexample :
    ((read_config (fun _ => none) (fun _ => true) id id
        (some { config_defaults with gaps_inner := 7 }) ["bogus"] true).during =
      [{ config_defaults with reloading := true, active := true }]) ∧
    ({ config_defaults with reloading := true, active := true } : SwayConfig) ≠
      { config_defaults with gaps_inner := 7 } ∧
    ((read_config (fun _ => none) (fun _ => true) id id
        (some { config_defaults with gaps_inner := 7 }) ["bogus"] true).global =
      some { config_defaults with active := true }) :=
  ⟨rfl, by decide, rfl⟩

/-- C1, amended: the newly built shadow store is published as the global
live store before the parse pass begins; during the processing of line `k`
the global is the in-progress shadow store (its state after the first `k`
lines), the final global is the completed shadow store, and the old live
store is destroyed only after the parse completes. -/
theorem C1_publish_before_parse (FH : String → Option CmdConfigType) (HC : String → Bool)
    (nz ft : String → String) (glob : Option SwayConfig) (lines : List String)
    (ia : Bool) (k : Nat) (hk : k < lines.length) :
    ((read_config FH HC nz ft glob lines ia).during.get? k =
      some (parseLines FH HC nz ft ia default_mode_init (initial_store ia) true
        (lines.take k)).1) ∧
    ((read_config FH HC nz ft glob lines ia).global =
      some (if ia then
        { (parseLines FH HC nz ft ia default_mode_init (initial_store ia) true lines).1
          with reloading := false }
      else (parseLines FH HC nz ft ia default_mode_init (initial_store ia) true lines).1)) ∧
    ((read_config FH HC nz ft glob lines ia).freed = glob.toList) := by
  refine ⟨?_, read_config_global_eq FH HC nz ft glob lines ia,
    read_config_freed_eq FH HC nz ft glob lines ia⟩
  rw [read_config_during_eq]
  exact parseGlobals_get? FH HC nz ft ia default_mode_init lines (initial_store ia) k hk

/-- C1, witness: the amended statement at a one-line reload. -/
theorem C1_witness :
    ((read_config (fun _ => none) (fun _ => true) id id (some config_defaults)
        ["bogus"] true).during.get? 0 =
      some (parseLines (fun _ => none) (fun _ => true) id id true default_mode_init
        (initial_store true) true (List.take 0 ["bogus"])).1) ∧
    ((read_config (fun _ => none) (fun _ => true) id id (some config_defaults)
        ["bogus"] true).global =
      some { (parseLines (fun _ => none) (fun _ => true) id id true default_mode_init
        (initial_store true) true ["bogus"]).1 with reloading := false }) ∧
    ((read_config (fun _ => none) (fun _ => true) id id (some config_defaults)
        ["bogus"] true).freed = (some config_defaults).toList) :=
  C1_publish_before_parse (fun _ => none) (fun _ => true) id id (some config_defaults)
    ["bogus"] true 0 (by decide)

/-- C4: a normalized directive line whose handler is classified
`CMD_COMPOSITOR_READY`, processed while the session is not active, is
appended (as a copy) to `cmd_queue` with no `handle_command` call and no
other store change; and over a whole inactive parse pass `cmd_queue`
receives exactly the deferred normalized lines, in source order. -/
theorem C4_deferred_ordering (FH : String → Option CmdConfigType) (HC : String → Bool)
    (nz ft : String → String) (dm : SwayMode) (c : SwayConfig) (s : Bool)
    (ls : List String) (line : String)
    (h1 : line ≠ "") (h2 : line.front ≠ Char.ofNat 125)
    (h3 : FH (ft line) = some CmdConfigType.compositorReady) :
    processLine FH HC ft false dm c line =
      { cfg := { c with cmd_queue := c.cmd_queue ++ [line] }, ok := true, hc_calls := [] } ∧
    (parseLines FH HC nz ft false dm c s ls).1.cmd_queue =
      c.cmd_queue ++ (ls.map nz).filter (deferredLine FH ft) :=
  ⟨processLine_deferred_eq FH HC ft dm c line h1 h2 h3,
   parseLines_queue_inactive FH HC nz ft dm ls c s⟩

/-- C4, witness: two deferrable lines against a registry classifying every
token `CMD_COMPOSITOR_READY`. -/
theorem C4_witness :
    processLine (fun _ => some CmdConfigType.compositorReady) (fun _ => true) id false
        default_mode_init config_defaults "exec a" =
      { cfg := { config_defaults with cmd_queue := config_defaults.cmd_queue ++ ["exec a"] },
        ok := true, hc_calls := [] } ∧
    (parseLines (fun _ => some CmdConfigType.compositorReady) (fun _ => true) id id false
        default_mode_init config_defaults true ["exec a", "exec b"]).1.cmd_queue =
      config_defaults.cmd_queue ++
        (List.map id ["exec a", "exec b"]).filter
          (deferredLine (fun _ => some CmdConfigType.compositorReady) id) :=
  C4_deferred_ordering (fun _ => some CmdConfigType.compositorReady) (fun _ => true) id id
    default_mode_init config_defaults true ["exec a", "exec b"] "exec a"
    (by decide) (by decide) rfl

/-- C5: a `handle_command` failure on any line makes `read_config` return
false and sets `failed` on the new store, while parsing continues over the
remaining lines (the loop is a homomorphism over list append); unknown
leading tokens and keybinding-only commands leave the store untouched and
count as success; and independently of the return value the newly built
store is the final global and the old store is destroyed. -/
theorem C5_error_aggregation (FH : String → Option CmdConfigType) (HC : String → Bool)
    (nz ft : String → String) (glob : Option SwayConfig) (lines : List String)
    (ia : Bool) (dm : SwayMode) (c : SwayConfig) (s : Bool) (line : String)
    (xs ys : List String) :
    ((read_config FH HC nz ft glob lines ia).ret =
      lines.all (fun l => lineOK FH HC ft ia (nz l))) ∧
    ((read_config FH HC nz ft glob lines ia).global.map SwayConfig.failed =
      some (!(lines.all (fun l => lineOK FH HC ft ia (nz l))))) ∧
    (line ≠ "" → line.front ≠ Char.ofNat 125 →
      (FH (ft line) = none ∨ FH (ft line) = some CmdConfigType.keybind) →
      processLine FH HC ft ia dm c line = { cfg := c, ok := true, hc_calls := [] }) ∧
    (parseLines FH HC nz ft ia dm c s (xs ++ ys) =
      parseLines FH HC nz ft ia dm (parseLines FH HC nz ft ia dm c s xs).1
        (parseLines FH HC nz ft ia dm c s xs).2 ys) ∧
    ((read_config FH HC nz ft glob lines ia).global =
      some (if ia then
        { (parseLines FH HC nz ft ia default_mode_init (initial_store ia) true lines).1
          with reloading := false }
      else (parseLines FH HC nz ft ia default_mode_init (initial_store ia) true lines).1)) ∧
    ((read_config FH HC nz ft glob lines ia).freed = glob.toList) :=
  ⟨read_config_ret_eq FH HC nz ft glob lines ia,
   read_config_failed_eq FH HC nz ft glob lines ia,
   fun h1 h2 h3 => processLine_ignored_eq FH HC ft ia dm c line h1 h2 h3,
   parseLines_append_eq FH HC nz ft ia dm xs ys c s,
   read_config_global_eq FH HC nz ft glob lines ia,
   read_config_freed_eq FH HC nz ft glob lines ia⟩

/-- C5, witness: a failing `handle_command` on the second of three lines,
an unknown token on the third. -/
theorem C5_witness :
    ((read_config (fun t => if t = "bad b" then some CmdConfigType.other else none)
        (fun _ => false) id id (some config_defaults) ["good a", "bad b", "junk c"] true).ret =
      List.all ["good a", "bad b", "junk c"]
        (fun l => lineOK (fun t => if t = "bad b" then some CmdConfigType.other else none)
          (fun _ => false) id true (id l))) ∧
    ((read_config (fun t => if t = "bad b" then some CmdConfigType.other else none)
        (fun _ => false) id id (some config_defaults)
        ["good a", "bad b", "junk c"] true).global.map SwayConfig.failed =
      some (!(List.all ["good a", "bad b", "junk c"]
        (fun l => lineOK (fun t => if t = "bad b" then some CmdConfigType.other else none)
          (fun _ => false) id true (id l))))) ∧
    (processLine (fun t => if t = "bad b" then some CmdConfigType.other else none)
        (fun _ => false) id true default_mode_init config_defaults "junk c" =
      { cfg := config_defaults, ok := true, hc_calls := [] }) :=
  ⟨(C5_error_aggregation (fun t => if t = "bad b" then some CmdConfigType.other else none)
      (fun _ => false) id id (some config_defaults) ["good a", "bad b", "junk c"] true
      default_mode_init config_defaults true "junk c" [] []).1,
   (C5_error_aggregation (fun t => if t = "bad b" then some CmdConfigType.other else none)
      (fun _ => false) id id (some config_defaults) ["good a", "bad b", "junk c"] true
      default_mode_init config_defaults true "junk c" [] []).2.1,
   (C5_error_aggregation (fun t => if t = "bad b" then some CmdConfigType.other else none)
      (fun _ => false) id id (some config_defaults) ["good a", "bad b", "junk c"] true
      default_mode_init config_defaults true "junk c" [] []).2.2.1
     (by decide) (by decide) (Or.inl (by decide))⟩

/-- C6: at every point of a parse pass — before (`k = 0`), during (any
`k`), and after (`k ≥ length`) — the new store's `modes` list contains a
mode named `"default"` and `current_mode` is a member of `modes`; the same
holds of the final published store; and a line whose first character is
the closing brace resets `current_mode` to the default mode with no other
effect on the store (no `handle_command` call, success). -/
theorem C6_default_mode_invariant (FH : String → Option CmdConfigType) (HC : String → Bool)
    (nz ft : String → String) (glob : Option SwayConfig) (lines : List String)
    (ia : Bool) (k : Nat) (dm : SwayMode) (c : SwayConfig) (line : String) :
    (∃ m ∈ (parseLines FH HC nz ft ia default_mode_init (initial_store ia) true
        (lines.take k)).1.modes, m.name = "default") ∧
    ((parseLines FH HC nz ft ia default_mode_init (initial_store ia) true
        (lines.take k)).1.current_mode ∈
      (parseLines FH HC nz ft ia default_mode_init (initial_store ia) true
        (lines.take k)).1.modes) ∧
    (∀ cfg, (read_config FH HC nz ft glob lines ia).global = some cfg →
      (∃ m ∈ cfg.modes, m.name = "default") ∧ cfg.current_mode ∈ cfg.modes) ∧
    (line ≠ "" → line.front = Char.ofNat 125 →
      processLine FH HC ft ia dm c line =
        { cfg := { c with current_mode := dm }, ok := true, hc_calls := [] }) := by
  have hmodes := parseLines_modes_eq FH HC nz ft ia default_mode_init (lines.take k)
    (initial_store ia) true
  have hcur := parseLines_current_mode FH HC nz ft ia default_mode_init (lines.take k)
    (initial_store ia) true (initial_store_current_mode ia)
  refine ⟨?_, ?_, ?_, ?_⟩
  · rw [hmodes, initial_store_modes]
    exact ⟨default_mode_init, List.mem_singleton_self _, rfl⟩
  · rw [hmodes, initial_store_modes, hcur]
    exact List.mem_singleton_self _
  · intro cfg hcfg
    rw [read_config_global_eq] at hcfg
    have hM := parseLines_modes_eq FH HC nz ft ia default_mode_init lines
      (initial_store ia) true
    have hC := parseLines_current_mode FH HC nz ft ia default_mode_init lines
      (initial_store ia) true (initial_store_current_mode ia)
    cases ia with
    | false =>
      simp only [Bool.false_eq_true, if_false, Option.some.injEq] at hcfg
      subst hcfg
      rw [hM, initial_store_modes, hC]
      exact ⟨⟨default_mode_init, List.mem_singleton_self _, rfl⟩, List.mem_singleton_self _⟩
    | true =>
      simp only [if_true, Option.some.injEq] at hcfg
      subst hcfg
      constructor
      · show ∃ m ∈ (parseLines FH HC nz ft true default_mode_init (initial_store true)
          true lines).1.modes, m.name = "default"
        rw [hM, initial_store_modes]
        exact ⟨default_mode_init, List.mem_singleton_self _, rfl⟩
      · show (parseLines FH HC nz ft true default_mode_init (initial_store true)
          true lines).1.current_mode ∈ (parseLines FH HC nz ft true default_mode_init
          (initial_store true) true lines).1.modes
        rw [hM, initial_store_modes, hC]
        exact List.mem_singleton_self _
  · intro h1 h2
    exact processLine_close_eq FH HC ft ia dm c line h1 h2

/-- C6, witness: a three-line pass (a mode-closing line in the middle). -/
theorem C6_witness :
    (∃ m ∈ (parseLines (fun _ => none) (fun _ => true) id id false default_mode_init
        (initial_store false) true (List.take 2 ["a", "\x7dx", "b"])).1.modes,
      m.name = "default") ∧
    ((parseLines (fun _ => none) (fun _ => true) id id false default_mode_init
        (initial_store false) true (List.take 2 ["a", "\x7dx", "b"])).1.current_mode ∈
      (parseLines (fun _ => none) (fun _ => true) id id false default_mode_init
        (initial_store false) true (List.take 2 ["a", "\x7dx", "b"])).1.modes) ∧
    (processLine (fun _ => none) (fun _ => true) id false default_mode_init
        config_defaults "\x7dx" =
      { cfg := { config_defaults with current_mode := default_mode_init },
        ok := true, hc_calls := [] }) :=
  ⟨(C6_default_mode_invariant (fun _ => none) (fun _ => true) id id none
      ["a", "\x7dx", "b"] false 2 default_mode_init config_defaults "\x7dx").1,
   (C6_default_mode_invariant (fun _ => none) (fun _ => true) id id none
      ["a", "\x7dx", "b"] false 2 default_mode_init config_defaults "\x7dx").2.1,
   (C6_default_mode_invariant (fun _ => none) (fun _ => true) id id none
      ["a", "\x7dx", "b"] false 2 default_mode_init config_defaults "\x7dx").2.2.2
     (by decide) (by decide)⟩

end Sway
